import Mathlib

/-!
Shallow embedding of the task/submission lifecycle and the multi-stage
evaluation pipeline of an app-build-and-deploy grading system (Python
services over a SQLite store).

Modelling conventions:
* Each SQLite table is an insertion-ordered `List` of row structures.
  `AUTOINCREMENT` ids and wall-clock `timestamp` columns are omitted: they
  are written but never read by any logic under verification.
* `INSERT OR REPLACE` under a `UNIQUE` constraint deletes every conflicting
  row and appends the fresh row at the end, which is how SQLite behaves.
* Network calls (HTTP delivery, page fetch, browser session) and external
  oracles (LLM scoring) are modelled by explicit oracle arguments; `Option`
  captures transport faults / exceptions (`none` = exception raised).
* Real-valued check scores are modelled as rationals (`ℚ`); every score the
  code can produce is an exact decimal, so no rounding questions arise.
* Python string truthiness (`if email:`) is modelled explicitly: an empty
  string or `None` filter is skipped, mirroring `database.py`.
-/

/-- Substring test on character lists: does `pat` occur at the head? -/
def isPrefixList : List Char → List Char → Bool
  | [], _ => true
  | _ :: _, [] => false
  | a :: as, b :: bs => a == b && isPrefixList as bs

/-- Substring occurrence test on character lists, mirroring Python `in`. -/
def containsList (pat : List Char) : List Char → Bool
  | [] => pat.isEmpty
  | a :: rest => isPrefixList pat (a :: rest) || containsList pat rest

/-- Python `pat in s` on strings. -/
def containsSub (s pat : String) : Bool :=
  containsList pat.data s.data

/-- Python `str.lower()` — the checks only ever lowercase ASCII text. -/
def toLowerStr (s : String) : String :=
  String.mk (s.data.map Char.toLower)

/-- Python `str.strip()`. -/
def stripStr (s : String) : String :=
  String.mk
    (((s.data.dropWhile Char.isWhitespace).reverse.dropWhile
      Char.isWhitespace).reverse)

/-- Python `s.split('-')[0]`. -/
def firstDashField (s : String) : String :=
  String.mk (s.data.takeWhile (fun c => !(c == '-')))

/-- Python `s.endswith(pat)`, as the `**/*{ext}` glob filter. -/
def endsWithStr (s pat : String) : Bool :=
  isPrefixList pat.data.reverse s.data.reverse

/-- A row of the `tasks` table (`database.py`, `init_database`): columns
`email, task, round, nonce, brief, attachments, checks, evaluation_url,
endpoint, statuscode, secret` with `UNIQUE(email, task, round)`.
The JSON-blob columns `attachments`/`checks` are stored and read back
through `json.dumps`/`json.loads`, a round trip modelled as identity. -/
structure TaskRow where
  email : String
  task : String
  round : Int
  nonce : String
  brief : String
  attachments : List (String × String)
  checks : List String
  evaluation_url : String
  endpoint : String
  statuscode : Option Int
  secret : String
deriving DecidableEq

/-- A row of the `repos` table: a student submission accepted by the gate,
with `UNIQUE(email, task, round)`. -/
structure RepoRow where
  email : String
  task : String
  round : Int
  nonce : String
  repo_url : String
  commit_sha : String
  pages_url : String
deriving DecidableEq

/-- A row of the `results` table (no uniqueness constraint). -/
structure ResultRow where
  email : String
  task : String
  round : Int
  repo_url : String
  commit_sha : String
  pages_url : String
  check_name : String
  score : ℚ
  reason : String
  logs : String
deriving DecidableEq

/-- SQL equality of a bound parameter against a column value.  Binding
Python `None` produces SQL `NULL`, and `col = NULL` evaluates to `NULL`,
which is not `TRUE`, so the row is never selected. -/
def sqlNullEq (filter : Option String) (v : String) : Bool :=
  match filter with
  | none => false
  | some s => s == v

/-- `DatabaseManager.task_exists`: `SELECT COUNT(*) FROM tasks WHERE
email = ? AND task = ? AND round = ?`, returning `count > 0`. -/
def task_exists (db : List TaskRow) (email : String) (task : Option String)
    (round_num : Int) : Bool :=
  (db.filter (fun t => t.email == email && sqlNullEq task t.task
    && t.round == round_num)).length > 0

/-- `DatabaseManager.insert_task`: `INSERT OR REPLACE INTO tasks`, keyed by
`UNIQUE(email, task, round)` — the conflicting row is deleted and the fresh
row appended. -/
def insert_task (db : List TaskRow) (r : TaskRow) : List TaskRow :=
  db.filter (fun t =>
    !(t.email == r.email && t.task == r.task && t.round == r.round)) ++ [r]

/-- An optional-string query filter with Python truthiness: a `None` or
empty-string argument leaves the filter off (`if email:` in `get_tasks`). -/
def strFilter (f : Option String) (v : String) : Bool :=
  match f with
  | none => true
  | some s => if s == "" then true else s == v

/-- An optional-int query filter with Python truthiness: a `None` or zero
argument leaves the filter off (`if round_num:` in `get_tasks`). -/
def intFilter (f : Option Int) (v : Int) : Bool :=
  match f with
  | none => true
  | some i => if i == 0 then true else i == v

/-- `DatabaseManager.get_tasks`: `SELECT * FROM tasks` with optional
`email`/`round` filters, rows in insertion order. -/
def get_tasks (db : List TaskRow) (email : Option String)
    (round_num : Option Int) : List TaskRow :=
  db.filter (fun t => strFilter email t.email && intFilter round_num t.round)

/-- `DatabaseManager.insert_repo`: `INSERT OR REPLACE INTO repos`, keyed by
`UNIQUE(email, task, round)`. -/
def insert_repo (db : List RepoRow) (r : RepoRow) : List RepoRow :=
  db.filter (fun t =>
    !(t.email == r.email && t.task == r.task && t.round == r.round)) ++ [r]

/-- `DatabaseManager.insert_result`: a plain `INSERT INTO results` — the
table has no uniqueness constraint, so the row is always appended. -/
def insert_result (db : List ResultRow) (r : ResultRow) : List ResultRow :=
  db ++ [r]

/-! ## Evaluation pipeline (`evaluate.py`) -/

/-- The cloned working tree, as the checks see it: relative path together
with the file's text, or `none` when `read_text` raises. -/
abbrev RepoFS := List (String × Option String)

/-- File lookup by exact relative path (`Path(repo_path) / name`), returning
`some none` for a file that exists but cannot be read. -/
def lookupFile (fs : RepoFS) (name : String) : Option (Option String) :=
  (fs.find? (fun p => p.1 == name)).map (·.2)

/-- The exact file names probed by `check_mit_license`, in probe order. -/
def license_files : List String :=
  ["LICENSE", "LICENSE.txt", "LICENSE.md", "license", "license.txt"]

/-- The loop body of `check_mit_license`: try each candidate file name in
order; an existing readable file whose lowercased text contains
`"mit license"` or `"mit"` ends the scan with success; a missing file, an
unreadable file, or a non-matching file falls through to the next name. -/
def checkLicenseLoop (fs : RepoFS) : List String → Bool × String
  | [] => (false, "MIT license not found")
  | n :: rest =>
    match lookupFile fs n with
    | some (some c) =>
      if containsSub (toLowerStr c) "mit license" || containsSub (toLowerStr c) "mit"
      then (true, "MIT license found")
      else checkLicenseLoop fs rest
    | _ => checkLicenseLoop fs rest

/-- `RepositoryEvaluator.check_mit_license`. -/
def check_mit_license (fs : RepoFS) : Bool × String :=
  checkLicenseLoop fs license_files

/-- Outcome of one call to the external text/code-quality oracle
(`openai.ChatCompletion.create` plus the leading-float parse):
the API raised, the response's first token was not a float, or a
numeric score with its free-text explanation was obtained. -/
inductive OracleOutcome where
  | apiError (msg : String)
  | unparsable (raw : String)
  | score (value : ℚ) (explanation : String)

/-- `RepositoryEvaluator.check_readme_quality`: rubric fallback when the
oracle is unavailable, otherwise oracle score clamped to `[0, 1]` with a
`0.5` degrade on API error or unparsable response.  (Rubric `reason`
strings are abbreviated: no claim reads them.) -/
def check_readme_quality (openaiAvailable : Bool)
    (readme : Option (Option String)) (oracle : OracleOutcome) : ℚ × String :=
  match readme with
  | none => (0, "README.md not found")
  | some none => (0, "Error reading README.md")
  | some (some content) =>
    if !openaiAvailable then
      let s0 : ℚ := 0
      let s1 := if content.length > 500 then s0 + 1/5 else s0
      let s2 := if containsSub content "# " then s1 + 1/5 else s1
      let s3 := if ["setup", "installation", "usage"].any
          (fun w => containsSub (toLowerStr content) w) then s2 + 1/5 else s2
      let s4 := if ["license", "mit"].any
          (fun w => containsSub (toLowerStr content) w) then s3 + 1/5 else s3
      let s5 := if containsSub content "```" then s4 + 1/5 else s4
      (min s5 1, "Basic criteria met")
    else
      match oracle with
      | .apiError msg => (1/2, "LLM evaluation error: " ++ msg)
      | .unparsable raw => (1/2, "LLM response parsing error: " ++ raw)
      | .score q expl => (min (max q 0) 1, expl)

/-- The source extensions globbed by `check_code_quality`, in glob order. -/
def code_extensions : List String :=
  [".html", ".css", ".js", ".py", ".java", ".cpp", ".c"]

/-- The `glob` loop of `check_code_quality`: all files whose path ends in a
recognised extension, grouped by extension in glob order. -/
def findCodeFiles (fs : RepoFS) : RepoFS :=
  (code_extensions.map (fun ext =>
    fs.filter (fun f => endsWithStr f.1 ext))).flatten

/-- `RepositoryEvaluator.check_code_quality`: `0.5` immediately when the
oracle is unavailable; `0.0` when no code files are found; `0.0` when none
of the first three code files is readable; otherwise the oracle's score
clamped to `[0, 1]`, degrading to `0.5` on API error or parse failure.
(The per-file 1000-character cap only truncates the sample text and is not
modelled.) -/
def check_code_quality (openaiAvailable : Bool) (fs : RepoFS)
    (oracle : OracleOutcome) : ℚ × String :=
  if !openaiAvailable then (1/2, "LLM not available for code quality check")
  else
    let code_files := findCodeFiles fs
    if code_files.isEmpty then (0, "No code files found")
    else
      let readable := (code_files.take 3).filterMap Prod.snd
      if readable.isEmpty then (0, "No readable code files")
      else
        match oracle with
        | .apiError msg => (1/2, "LLM code evaluation error: " ++ msg)
        | .unparsable raw => (1/2, "LLM response parsing error: " ++ raw)
        | .score q expl => (min (max q 0) 1, expl)

/-- `RepositoryEvaluator.check_pages_accessibility`: `requests.get` with a
timeout; `true` exactly on HTTP 200, `false` on any other status, `false`
on a transport exception (`none`). -/
def check_pages_accessibility (response : Option Nat) : Bool × String :=
  match response with
  | some code =>
    if code == 200 then (true, "Pages accessible (HTTP " ++ toString code ++ ")")
    else (false, "Pages not accessible (HTTP " ++ toString code ++ ")")
  | none => (false, "Pages accessibility error")

/-- What one headless-browser session observes on the deployed page:
the title, the rendered body text, the body text rendered after the
task-specific probe navigation (`?url=test` / `?city=London`), and whether
`input`/`button` elements are present. -/
structure BrowserObs where
  title : String
  bodyText : String
  secondBody : String
  inputsPresent : Bool
  buttonsPresent : Bool

/-- The task-family-specific sub-probe of `dynamic_check_playwright`,
dispatched on the first `-`-separated component of the task id. -/
def probePasses (taskName : String) (o : BrowserObs) : Bool :=
  let task_type := firstDashField taskName
  if task_type == "captcha" then containsSub (toLowerStr o.secondBody) "test"
  else if task_type == "weather" then containsSub (toLowerStr o.secondBody) "london"
  else if task_type == "todo" then o.inputsPresent && o.buttonsPresent
  else false

/-- `RepositoryEvaluator.dynamic_check_playwright`: `0.5` when Playwright
is not importable; `0.0` when the browser session raises (`obs = none`);
otherwise partial credit accumulated as in the source — `+0.3` for a
non-blank title, `+0.3` for more than 50 characters of stripped body text,
`+0.4` for the task-specific probe — then clamped by `min(score, 1.0)`. -/
def dynamic_check_playwright (playwrightAvailable : Bool)
    (obs : Option BrowserObs) (taskName : String) : ℚ × String :=
  if !playwrightAvailable then (1/2, "Playwright not available for dynamic checks")
  else
    match obs with
    | none => (0, "Dynamic check error")
    | some o =>
      let score0 : ℚ := 0
      let score1 := if stripStr o.title ≠ "" then score0 + 3/10 else score0
      let score2 := if (stripStr o.bodyText).length > 50 then score1 + 3/10 else score1
      let score3 := if probePasses taskName o then score2 + 4/10 else score2
      (min score3 1, "Dynamic checks passed")

/-- The external world of one `evaluate_repository` call: the clone/checkout
outcome, the cloned tree, oracle availability and outcomes, the
reachability response, and the browser session. -/
structure EvalEnv where
  cloneOk : Bool
  fs : RepoFS
  openaiAvailable : Bool
  readmeOracle : OracleOutcome
  codeOracle : OracleOutcome
  pagesResponse : Option Nat
  playwrightAvailable : Bool
  browser : Option BrowserObs

/-- Build one `results`-row payload for `repo_data`, as the dicts assembled
inside `evaluate_repository`. -/
def mkResult (repo : RepoRow) (name : String) (score : ℚ) (reason : String) :
    ResultRow :=
  { email := repo.email, task := repo.task, round := repo.round,
    repo_url := repo.repo_url, commit_sha := repo.commit_sha,
    pages_url := repo.pages_url, check_name := name, score := score,
    reason := reason, logs := "" }

/-- `RepositoryEvaluator.evaluate_repository`, as the ordered list of result
rows it assembles: license/README/code checks when the clone succeeded
(a single `Repository Access` failure row otherwise), then the reachability
check, then — only when reachability passed — the dynamic check. -/
def evaluate_repository (repo : RepoRow) (env : EvalEnv) : List ResultRow :=
  let cloneRows :=
    if env.cloneOk then
      let lic := check_mit_license env.fs
      let readme := check_readme_quality env.openaiAvailable
        (lookupFile env.fs "README.md") env.readmeOracle
      let code := check_code_quality env.openaiAvailable env.fs env.codeOracle
      [mkResult repo "MIT License" (if lic.1 then 1 else 0) lic.2,
       mkResult repo "README Quality" readme.1 readme.2,
       mkResult repo "Code Quality" code.1 code.2]
    else
      [mkResult repo "Repository Access" 0 "Failed to clone repository"]
  let pages := check_pages_accessibility env.pagesResponse
  let pagesRow := mkResult repo "Pages Accessibility"
    (if pages.1 then 1 else 0) pages.2
  let dynRows :=
    if pages.1 then
      let dyn := dynamic_check_playwright env.playwrightAvailable env.browser
        repo.task
      [mkResult repo "Dynamic Functionality" dyn.1 dyn.2]
    else []
  cloneRows ++ [pagesRow] ++ dynRows

/-- The result-storing loop at the end of `evaluate_repository`:
`for result in results: self.db.insert_result(result)`. -/
def storeResults (db : List ResultRow) (repo : RepoRow) (env : EvalEnv) :
    List ResultRow :=
  (evaluate_repository repo env).foldl insert_result db

/-! ## Submission gate (`evaluation_api.py`, `receive_notification`) -/

/-- The parsed JSON body of a `POST /api/notify` request; a field absent
from the JSON object is `none`. -/
structure NotifData where
  email : Option String
  task : Option String
  round : Option Int
  nonce : Option String
  repo_url : Option String
  commit_sha : Option String
  pages_url : Option String

/-- The JSON body of the gate's HTTP response: `{status: "success"}` or an
error object.  (The missing-field error names the field in the source; the
message text is abbreviated here.) -/
inductive NotifyBody where
  | success
  | error (msg : String)
deriving DecidableEq

/-- The gate's full outcome: HTTP status, response body, and the `repos`
table after the request. -/
structure NotifyResult where
  status : Nat
  body : NotifyBody
  repos : List RepoRow
deriving DecidableEq

/-- `receive_notification`: reject with 400 when a required field is
missing; look up tasks via `get_tasks(email, round)` and scan for the first
row whose `task` and `nonce` both match; reject with 400 when none matches
(no repo row written); otherwise upsert the repo row — 200/`success` when
the store accepts it, 500 when the store reports failure (`storageOk`
models an `insert_repo` storage fault, in which case nothing is written). -/
def receive_notification (tasks : List TaskRow) (repos : List RepoRow)
    (data : NotifData) (storageOk : Bool) : NotifyResult :=
  match data.email, data.task, data.round, data.nonce,
      data.repo_url, data.commit_sha, data.pages_url with
  | some e, some tk, some rd, some nn, some ru, some cs, some pu =>
    let candidates := get_tasks tasks (some e) (some rd)
    match candidates.find? (fun t => t.task == tk && t.nonce == nn) with
    | none =>
      ⟨400, .error "No matching task found for the provided email, task, round, and nonce", repos⟩
    | some _ =>
      if storageOk then
        ⟨200, .success, insert_repo repos ⟨e, tk, rd, nn, ru, cs, pu⟩⟩
      else
        ⟨500, .error "Failed to store repo submission", repos⟩
  | _, _, _, _, _, _, _ => ⟨400, .error "Missing required field", repos⟩

/-! ## Round-1 issuer (`round1.py`, `process_submissions` loop body) -/

/-- The student-specific parts of a freshly generated round-1 task
(`Round1TaskGenerator.generate_task`): template selection, the md5-based
task id, and the `uuid4` nonce are produced by external entropy/clock
inputs, so the generated bundle is passed in as an oracle (`none` models
the `generate_task` error path returning `None`). -/
structure GenTaskData where
  task : String
  nonce : String
  brief : String
  checks : List String
  attachments : List (String × String)

/-- What one iteration of the `process_submissions` loop did to its
student: the resulting `tasks` table, whether the dedup gate skipped the
student, whether a task bundle was generated, and the delivery attempt
(endpoint together with the HTTP status, `none` inside when the POST
raised) if one was made. -/
structure ProcessOutcome where
  db : List TaskRow
  skipped : Bool
  generated : Bool
  delivered : Option (String × Option Int)
deriving DecidableEq

/-- One iteration of `Round1TaskGenerator.process_submissions` for the CSV
row `(email, endpoint, secret)`: skip when `task_exists(email, None, 1)`
reports an existing round-1 task; otherwise generate, POST the task to the
student endpoint (`sendStatus` is the returned HTTP status), and upsert the
task row with the recorded status code. -/
def process_submissions_step (db : List TaskRow) (evaluation_url : String)
    (email endpoint secret : String) (gen : Option GenTaskData)
    (sendStatus : Option Int) : ProcessOutcome :=
  if task_exists db email none 1 then
    ⟨db, true, false, none⟩
  else
    match gen with
    | none => ⟨db, false, false, none⟩
    | some g =>
      let record : TaskRow :=
        { email := email, task := g.task, round := 1, nonce := g.nonce,
          brief := g.brief, attachments := g.attachments, checks := g.checks,
          evaluation_url := evaluation_url, endpoint := endpoint,
          statuscode := sendStatus, secret := secret }
      ⟨insert_task db record, false, true, some (endpoint, sendStatus)⟩

/-! ## Round-2 retry sweep (`round2.py`, `retry_failed_round2_tasks`) -/

/-- The JSON payload POSTed to a student endpoint when a round-2 task is
re-delivered, rebuilt field-by-field from the stored task row. -/
structure TaskPayload where
  email : String
  secret : String
  task : String
  round : Int
  nonce : String
  brief : String
  checks : List String
  evaluation_url : String
  attachments : List (String × String)
deriving DecidableEq

/-- The payload `retry_failed_round2_tasks` rebuilds from a stored row:
every field, the nonce included, is copied verbatim (`json.loads` of the
stored JSON blobs is the identity round trip). -/
def payloadOf (t : TaskRow) : TaskPayload :=
  { email := t.email, secret := t.secret, task := t.task, round := t.round,
    nonce := t.nonce, brief := t.brief, checks := t.checks,
    evaluation_url := t.evaluation_url, attachments := t.attachments }

/-- `Round2TaskGenerator.retry_failed_round2_tasks`: select the round-2
tasks whose stored `statuscode` differs from 200 (a `NULL` status also
qualifies), re-POST each stored payload to the stored endpoint, and only
print the outcome — the sweep performs no store write, so it returns the
table unchanged together with the deliveries it attempted. -/
def retry_failed_round2_tasks (db : List TaskRow)
    (send : TaskPayload → Option Int) :
    List TaskRow × List (String × TaskPayload × Option Int) :=
  let all_round2_tasks := get_tasks db none (some 2)
  let failed_tasks := all_round2_tasks.filter
    (fun t => !(t.statuscode == some 200))
  (db, failed_tasks.map (fun t =>
    (t.endpoint, payloadOf t, send (payloadOf t))))

/-! ## Build-completion notifier (`student_api/app.py`,
`notify_evaluation_api`) -/

/-- The retry loop of `notify_evaluation_api`, recursing over the attempt
numbers `range(max_retries)` still to run.  `responses a` is the HTTP
status the POST of attempt `a` obtains (`none` = transport exception).
Returns `(overall success, the back-off delays slept in order, total
attempts made)`; a delay of `2 ^ attempt` seconds is slept after every
failed attempt except the last (`if attempt < max_retries - 1`). -/
def notifyLoop (responses : Nat → Option Nat) (max_retries : Nat) :
    List Nat → Bool × List Nat × Nat
  | [] => (false, [], max_retries)
  | attempt :: rest =>
    if responses attempt == some 200 then (true, [], attempt + 1)
    else
      let r := notifyLoop responses max_retries rest
      if attempt < max_retries - 1 then (r.1, 2 ^ attempt :: r.2.1, r.2.2)
      else r

/-- `notify_evaluation_api`: bail out with `False` (zero attempts) when
`data.get('evaluation_url')` is missing or falsy, otherwise run up to
`max_retries` delivery attempts with exponential back-off. -/
def notify_evaluation_api (evaluation_url : Option String)
    (responses : Nat → Option Nat) (max_retries : Nat) :
    Bool × List Nat × Nat :=
  match evaluation_url with
  | none => (false, [], 0)
  | some u =>
    if u == "" then (false, [], 0)
    else notifyLoop responses max_retries (List.range max_retries)

/-! ## Theorems -/

/-- The folded `insert_result` loop is a plain append. -/
lemma foldl_insert_result (rows db : List ResultRow) :
    rows.foldl insert_result db = db ++ rows := by
  induction rows generalizing db with
  | nil => simp
  | cons r rs ih => simp [insert_result, ih]

/-- Every evaluation pass produces at least one result row (the
reachability row is unconditional). -/
lemma evaluate_repository_length_pos (repo : RepoRow) (env : EvalEnv) :
    0 < (evaluate_repository repo env).length := by
  simp only [evaluate_repository, List.length_append, List.length_cons]
  omega

/-- C10: for every database state, email and round, `task_exists` with a
`None` task argument returns `False` — the bound SQL `NULL` never compares
equal to a stored task id — and this is exactly the dedup gate of the
round-1 issuer loop, which therefore never reports a student as already
served. -/
theorem task_exists_none_filter_false :
    (∀ (db : List TaskRow) (email : String) (round_num : Int),
      task_exists db email none round_num = false) ∧
    (∀ (db : List TaskRow) (evaluation_url email endpoint secret : String)
        (gen : Option GenTaskData) (sendStatus : Option Int),
      (process_submissions_step db evaluation_url email endpoint secret gen
        sendStatus).skipped = false) := by
  have h1 : ∀ (db : List TaskRow) (email : String) (round_num : Int),
      task_exists db email none round_num = false := by
    intro db email r
    simp [task_exists, sqlNullEq]
  refine ⟨h1, ?_⟩
  intro db u e ep s gen snd
  cases gen <;> simp [process_submissions_step, h1]

/-- The round-1 task already on file for student `a@x.edu` in the C2
failing input. -/
def c2ExistingTask : TaskRow :=
  { email := "a@x.edu", task := "todo-manager-ab123", round := 1,
    nonce := "n1", brief := "b", attachments := [], checks := [],
    evaluation_url := "u", endpoint := "ep", statuscode := some 200,
    secret := "s" }

/-- The fresh bundle `generate_task` mints for `a@x.edu` on the later
sweep (a new template, a new nonce). -/
def c2FreshGen : GenTaskData :=
  { task := "captcha-solver-cd456", nonce := "n2", brief := "b2",
    checks := [], attachments := [] }

/-- The task row the later sweep writes for `a@x.edu`. -/
def c2FreshTask : TaskRow :=
  { email := "a@x.edu", task := "captcha-solver-cd456", round := 1,
    nonce := "n2", brief := "b2", attachments := [], checks := [],
    evaluation_url := "u", endpoint := "ep", statuscode := some 200,
    secret := "s" }

/-- C2 (failing input): the store already holds a round-1 task for
`a@x.edu`, yet the round-1 issuer sweep does not skip the student — it
generates a fresh task with a fresh nonce, attempts delivery to the
endpoint, and writes a second round-1 row, where its own dedup comment
("Check if round 1 task already exists, skip") promises a no-op. -/
theorem round1_dedup_gate_never_skips :
    (∃ t ∈ [c2ExistingTask], t.email = "a@x.edu" ∧ t.round = 1) ∧
    process_submissions_step [c2ExistingTask] "u" "a@x.edu" "ep" "s"
        (some c2FreshGen) (some 200)
      = { db := [c2ExistingTask, c2FreshTask], skipped := false,
          generated := true, delivered := some ("ep", some 200) } := by
  constructor
  · exact ⟨c2ExistingTask, by simp, rfl, rfl⟩
  · decide

/-- C4: result rows only accumulate — an evaluation pass over a submission
appends its rows to the `results` table, every row present before the pass
is still present after it, and the row count strictly increases with each
pass. -/
theorem insert_result_append_only :
    ∀ (db : List ResultRow) (repo : RepoRow) (env : EvalEnv),
      storeResults db repo env = db ++ evaluate_repository repo env ∧
      db.length < (storeResults db repo env).length ∧
      ∀ r ∈ db, r ∈ storeResults db repo env := by
  intro db repo env
  have h := foldl_insert_result (evaluate_repository repo env) db
  refine ⟨h, ?_, ?_⟩
  · rw [storeResults, h, List.length_append]
    have := evaluate_repository_length_pos repo env
    omega
  · intro r hr
    rw [storeResults, h]
    exact List.mem_append_left _ hr

/-- C9: the round-2 retry sweep re-delivers exactly the stored payload —
every delivery it attempts is for a stored round-2 task whose recorded
status is not 200, carries that task's stored nonce unchanged (no new
nonce is minted), and the sweep leaves the whole `tasks` table, status
codes included, exactly as it found it, whatever the retry outcomes. -/
theorem round2_retry_frame_and_nonce :
    ∀ (db : List TaskRow) (send : TaskPayload → Option Int),
      (retry_failed_round2_tasks db send).1 = db ∧
      ∀ x ∈ (retry_failed_round2_tasks db send).2,
        ∃ t ∈ db, t.round = 2 ∧ t.statuscode ≠ some 200 ∧
          x.2.1 = payloadOf t ∧ x.2.1.nonce = t.nonce := by
  intro db send
  refine ⟨rfl, ?_⟩
  intro x hx
  simp only [retry_failed_round2_tasks, get_tasks, List.mem_map,
    List.mem_filter] at hx
  obtain ⟨t, ⟨⟨htdb, hfilters⟩, hsc⟩, hxeq⟩ := hx
  subst hxeq
  rw [Bool.and_eq_true] at hfilters
  refine ⟨t, htdb, ?_, ?_, rfl, rfl⟩
  · have h2 := hfilters.2
    have hred : intFilter (some 2) t.round = (2 == t.round) := rfl
    rw [hred] at h2
    exact (beq_iff_eq.mp h2).symm
  · intro hc
    simp [hc] at hsc

/-- Number of task rows carrying a given `(email, task, round)` key — the
key of the `UNIQUE(email, task, round)` constraint on `tasks`. -/
def countTriple (db : List TaskRow) (e k : String) (rd : Int) : Nat :=
  (db.filter (fun t => t.email == e && t.task == k && t.round == rd)).length

/-- The uniqueness invariant of the `tasks` table: at most one row per
`(email, task, round)` triple. -/
def AtMostOnePerKey (db : List TaskRow) : Prop :=
  ∀ e k rd, countTriple db e k rd ≤ 1

/-- Strengthening a filter never yields more matches. -/
lemma length_filter_and_not_le {α : Type} (p q : α → Bool) (l : List α) :
    (l.filter (fun a => q a && !(p a))).length ≤ (l.filter q).length := by
  induction l with
  | nil => simp
  | cons a t ih =>
    by_cases hp : p a <;> by_cases hq : q a <;> simp [hp, hq] <;> omega

/-- A filter and its complement split a list's length. -/
lemma length_filter_not_add {α : Type} (p : α → Bool) (l : List α) :
    (l.filter (fun a => !(p a))).length + (l.filter p).length = l.length := by
  induction l with
  | nil => rfl
  | cons a t ih => by_cases hp : p a <;> simp [hp] <;> omega

/-- After an upsert, exactly one row carries the upserted key. -/
lemma countTriple_insert_self (db : List TaskRow) (r : TaskRow) :
    countTriple (insert_task db r) r.email r.task r.round = 1 := by
  unfold countTriple insert_task
  induction db with
  | nil => simp
  | cons a l ih =>
    by_cases h : (a.email == r.email && a.task == r.task && a.round == r.round) = true
    · simp [h]
    · simp only [Bool.not_eq_true] at h
      simp [h]

/-- An upsert never increases the row count of any other key. -/
lemma countTriple_insert_other (db : List TaskRow) (r : TaskRow) (e k : String)
    (rd : Int) (hne : ¬(e = r.email ∧ k = r.task ∧ rd = r.round)) :
    countTriple (insert_task db r) e k rd ≤ countTriple db e k rd := by
  unfold countTriple insert_task
  have hr : (r.email == e && r.task == k && r.round == rd) = false := by
    rw [Bool.eq_false_iff]
    intro hc
    apply hne
    simp only [Bool.and_eq_true, beq_iff_eq] at hc
    exact ⟨hc.1.1.symm, hc.1.2.symm, hc.2.symm⟩
  rw [List.filter_append, List.filter_filter]
  simp only [List.filter_cons, hr, Bool.false_eq_true, if_false,
    List.filter_nil, List.append_nil]
  exact length_filter_and_not_le _ _ db

/-- C3: `insert_task` is a true upsert under `UNIQUE(email, task, round)` —
it preserves the at-most-one-row-per-key invariant, leaves exactly one row
for the upserted key, replaces (rather than appends) whenever the key was
already present, so the table length does not grow, and any sequence of
further upserts keeps the invariant. -/
theorem insert_task_upsert_unique (db : List TaskRow) (r : TaskRow)
    (h : AtMostOnePerKey db) :
    AtMostOnePerKey (insert_task db r) ∧
    countTriple (insert_task db r) r.email r.task r.round = 1 ∧
    ((∃ t ∈ db, t.email = r.email ∧ t.task = r.task ∧ t.round = r.round) →
      (insert_task db r).length = db.length) ∧
    ∀ rs : List TaskRow, AtMostOnePerKey (rs.foldl insert_task db) := by
  have hpres : ∀ (db' : List TaskRow) (r' : TaskRow), AtMostOnePerKey db' →
      AtMostOnePerKey (insert_task db' r') := by
    intro db' r' h' e k rd
    by_cases hk : e = r'.email ∧ k = r'.task ∧ rd = r'.round
    · obtain ⟨h1, h2, h3⟩ := hk
      subst h1; subst h2; subst h3
      rw [countTriple_insert_self]
    · exact le_trans (countTriple_insert_other db' r' e k rd hk) (h' e k rd)
  refine ⟨hpres db r h, countTriple_insert_self db r, ?_, ?_⟩
  · rintro ⟨t, htdb, he, hk, hrd⟩
    have hmem : t ∈ db.filter
        (fun t => t.email == r.email && t.task == r.task && t.round == r.round) := by
      rw [List.mem_filter]
      exact ⟨htdb, by simp [he, hk, hrd]⟩
    have hone : countTriple db r.email r.task r.round = 1 := by
      have hle := h r.email r.task r.round
      have hpos : 0 < countTriple db r.email r.task r.round := by
        unfold countTriple
        exact List.length_pos_of_mem hmem
      omega
    have hsplit := length_filter_not_add
      (fun t => t.email == r.email && t.task == r.task && t.round == r.round) db
    have : (insert_task db r).length = (db.filter (fun t =>
        !(t.email == r.email && t.task == r.task && t.round == r.round))).length + 1 := by
      simp [insert_task]
    rw [this]
    unfold countTriple at hone
    omega
  · intro rs
    induction rs generalizing db with
    | nil => exact h
    | cons r' rest ih => exact ih _ (hpres db r' h)

/-- A concrete task row for exercising the upsert theorem. -/
def c3Row : TaskRow :=
  { email := "a@x.edu", task := "todo-manager-ab123", round := 1,
    nonce := "n1", brief := "b", attachments := [], checks := [],
    evaluation_url := "u", endpoint := "ep", statuscode := some 200,
    secret := "s" }

/-- Witness for C3: a singleton store satisfies the invariant, and
re-upserting the same key keeps exactly one row and does not grow the
table. -/
theorem insert_task_upsert_unique_witness :
    AtMostOnePerKey [c3Row] ∧
    (AtMostOnePerKey (insert_task [c3Row] c3Row) ∧
     countTriple (insert_task [c3Row] c3Row) c3Row.email c3Row.task
       c3Row.round = 1 ∧
     ((∃ t ∈ [c3Row], t.email = c3Row.email ∧ t.task = c3Row.task ∧
         t.round = c3Row.round) →
       (insert_task [c3Row] c3Row).length = [c3Row].length) ∧
     ∀ rs : List TaskRow, AtMostOnePerKey (rs.foldl insert_task [c3Row])) := by
  have hAMO : AtMostOnePerKey [c3Row] := by
    intro e k rd
    unfold countTriple
    exact le_trans (List.length_filter_le _ _) (by simp)
  exact ⟨hAMO, insert_task_upsert_unique [c3Row] c3Row hAMO⟩

/-- C7 (counterexample): a repository with no inspectable code files is
scored `0.5`, not `0.0`, when the external oracle is unavailable — the
oracle-availability guard fires before the empty-file check. -/
theorem code_quality_no_oracle_counterexample :
    findCodeFiles [] = [] ∧
    (check_code_quality false [] (.apiError "oracle down")).1 = 1/2 ∧
    ((1 : ℚ)/2 ≠ 0) := by
  refine ⟨rfl, rfl, by norm_num⟩

/-- C7 (amended): when the oracle is available, a repository with no
inspectable code files scores `0.0`; when the oracle is unavailable, the
check returns `0.5` regardless of the repository's contents. -/
theorem code_quality_no_files_score :
    (∀ (fs : RepoFS) (oracle : OracleOutcome),
      findCodeFiles fs = [] →
      check_code_quality true fs oracle = (0, "No code files found")) ∧
    (∀ (fs : RepoFS) (oracle : OracleOutcome),
      check_code_quality false fs oracle
        = (1/2, "LLM not available for code quality check")) := by
  constructor
  · intro fs oracle hempty
    simp [check_code_quality, hempty]
  · intro fs oracle
    simp [check_code_quality]

/-- Witness for C7's amended theorem: the empty repository has no code
files, scoring `0.0` with the oracle available and `0.5` without it. -/
theorem code_quality_no_files_score_witness :
    findCodeFiles [] = [] ∧
    check_code_quality true [] (.apiError "oracle down")
      = (0, "No code files found") ∧
    check_code_quality false [] (.apiError "oracle down")
      = (1/2, "LLM not available for code quality check") :=
  ⟨rfl, code_quality_no_files_score.1 [] (.apiError "oracle down") rfl,
    code_quality_no_files_score.2 [] (.apiError "oracle down")⟩

/-- A prefix of a prefix test: dropping a suffix of the pattern preserves
the match. -/
lemma isPrefixList_append (p q s : List Char) :
    isPrefixList (p ++ q) s = true → isPrefixList p s = true := by
  induction p generalizing s with
  | nil => intro _; rfl
  | cons a as ih =>
    cases s with
    | nil => intro h; exact absurd h (by simp [isPrefixList])
    | cons b bs =>
      simp only [List.cons_append, isPrefixList, Bool.and_eq_true]
      rintro ⟨h1, h2⟩
      exact ⟨h1, ih bs h2⟩

/-- Containing a longer pattern implies containing its prefix. -/
lemma containsList_append (p q s : List Char) :
    containsList (p ++ q) s = true → containsList p s = true := by
  induction s with
  | nil =>
    simp only [containsList, List.isEmpty_eq_true, List.append_eq_nil]
    rintro ⟨hp, _⟩
    simp [hp]
  | cons a rest ih =>
    simp only [containsList, Bool.or_eq_true]
    rintro (h | h)
    · exact Or.inl (isPrefixList_append p q _ h)
    · exact Or.inr (ih h)

/-- A string containing `"mit license"` contains `"mit"`. -/
lemma containsSub_mit_of_mit_license (s : String) :
    containsSub s "mit license" = true → containsSub s "mit" = true := by
  intro h
  have hd : ("mit license").data = ("mit").data ++ (" license").data := by decide
  unfold containsSub at h ⊢
  rw [hd] at h
  exact containsList_append _ _ _ h

/-- One candidate license file name hits when the file exists, is
readable, and its lowercased text contains `"mit"` — the condition the
spec states for the license check. -/
def licHit (fs : RepoFS) (n : String) : Bool :=
  match lookupFile fs n with
  | some (some c) => containsSub (toLowerStr c) "mit"
  | _ => false

/-- The amended condition of the license check: some file named exactly
`LICENSE`, `LICENSE.txt`, `LICENSE.md`, `license` or `license.txt`
contains `"mit"` case-insensitively. -/
def mitFileFound (fs : RepoFS) : Bool :=
  license_files.any (licHit fs)

/-- The license scan succeeds exactly when some probed name hits (the
source's redundant `'mit license' in content` disjunct is absorbed by the
`'mit' in content` disjunct). -/
lemma checkLicenseLoop_fst (fs : RepoFS) (names : List String) :
    (checkLicenseLoop fs names).1 = names.any (licHit fs) := by
  induction names with
  | nil => rfl
  | cons n rest ih =>
    simp only [checkLicenseLoop, List.any_cons]
    cases hl : lookupFile fs n with
    | none => simp [licHit, hl, ih]
    | some oc =>
      cases oc with
      | none => simp [licHit, hl, ih]
      | some c =>
        by_cases hm : containsSub (toLowerStr c) "mit" = true
        · have hcond : (containsSub (toLowerStr c) "mit license"
              || containsSub (toLowerStr c) "mit") = true := by
            simp [hm]
          simp [hcond, licHit, hl, hm]
        · have hml : containsSub (toLowerStr c) "mit license" = false := by
            rw [Bool.eq_false_iff]
            intro hc
            exact hm (containsSub_mit_of_mit_license _ hc)
          have hm' : containsSub (toLowerStr c) "mit" = false :=
            Bool.eq_false_iff.mpr hm
          simp [hml, hm', licHit, hl, ih]

/-- C6 (counterexample): a repository whose only license file is named
`License` — a case variant of `LICENSE` — with MIT text is scored `0.0`
by the license check: the probe list holds only the exact names
`LICENSE`, `LICENSE.txt`, `LICENSE.md`, `license`, `license.txt`. -/
theorem license_case_variant_counterexample :
    (([("License", some "MIT License")] : RepoFS).any
      (fun p => toLowerStr p.1 == "license" &&
        p.2.elim false (fun c => containsSub (toLowerStr c) "mit"))) = true ∧
    (check_mit_license [("License", some "MIT License")]).1 = false := by
  constructor <;> decide

/-- C6 (amended): the license check succeeds — and the `MIT License`
result row scores `1.0` rather than `0.0` — exactly when one of the files
named exactly `LICENSE`, `LICENSE.txt`, `LICENSE.md`, `license` or
`license.txt` exists, is readable, and contains `"mit"`
case-insensitively; the recorded score is always one of `{0.0, 1.0}`. -/
theorem check_mit_license_exact_filenames (repo : RepoRow) (env : EvalEnv)
    (hclone : env.cloneOk = true) :
    ((evaluate_repository repo env).filter
        (fun r => r.check_name == "MIT License")).map ResultRow.score
      = [if mitFileFound env.fs then 1 else 0] ∧
    (check_mit_license env.fs).1 = mitFileFound env.fs := by
  have hloop : (check_mit_license env.fs).1 = mitFileFound env.fs :=
    checkLicenseLoop_fst env.fs license_files
  refine ⟨?_, hloop⟩
  by_cases hp : (check_pages_accessibility env.pagesResponse).1 <;>
    simp [evaluate_repository, hclone, mkResult, hp, hloop]


/-- Reachability passes exactly on HTTP 200. -/
lemma pages_accessible_iff (resp : Option Nat) :
    (check_pages_accessibility resp).1 = true ↔ resp = some 200 := by
  cases resp with
  | none => simp [check_pages_accessibility]
  | some c =>
    by_cases hc : c = 200
    · subst hc; simp [check_pages_accessibility]
    · have hbe : (c == 200) = false := by simpa using hc
      simp [check_pages_accessibility, hbe, hc]

/-- The dynamic-check scores among an evaluation's rows: exactly one row,
scored by `dynamic_check_playwright`, when reachability passed, and none
otherwise. -/
lemma dyn_scores (repo : RepoRow) (env : EvalEnv) :
    ((evaluate_repository repo env).filter
        (fun r => r.check_name == "Dynamic Functionality")).map ResultRow.score
      = if (check_pages_accessibility env.pagesResponse).1
        then [(dynamic_check_playwright env.playwrightAvailable env.browser
          repo.task).1]
        else [] := by
  have hn1 : (("MIT License" : String) == "Dynamic Functionality") = false := by decide
  have hn2 : (("README Quality" : String) == "Dynamic Functionality") = false := by decide
  have hn3 : (("Code Quality" : String) == "Dynamic Functionality") = false := by decide
  have hn4 : (("Repository Access" : String) == "Dynamic Functionality") = false := by decide
  have hn5 : (("Pages Accessibility" : String) == "Dynamic Functionality") = false := by decide
  by_cases hc : env.cloneOk <;>
    by_cases hp : (check_pages_accessibility env.pagesResponse).1 <;>
      simp [evaluate_repository, hc, hp, mkResult, hn1, hn2, hn3, hn4, hn5]

/-- The accumulated dynamic score is the clamped sum of the independent
sub-probe contributions. -/
lemma dynamic_check_score_sum (o : BrowserObs) (taskName : String) :
    (dynamic_check_playwright true (some o) taskName).1
      = min ((if stripStr o.title ≠ "" then (3 : ℚ)/10 else 0)
        + (if (stripStr o.bodyText).length > 50 then (3 : ℚ)/10 else 0)
        + (if probePasses taskName o then (4 : ℚ)/10 else 0)) 1 := by
  simp only [dynamic_check_playwright, Bool.not_true, Bool.false_eq_true,
    if_false]
  by_cases ht : stripStr o.title ≠ "" <;>
    by_cases hb : (stripStr o.bodyText).length > 50 <;>
      by_cases hq : probePasses taskName o <;>
        simp [ht, hb, hq]

/-- C5: the dynamic functional check runs exactly when the reachability
check passed (HTTP 200 on the deployed page), and — given a working
Playwright and a browser session that does not raise — its recorded score
is the clamped sum of the three independent sub-probe contributions:
`0.3` for a non-blank page title, `0.3` for more than 50 characters of
stripped body text, `0.4` for the task-family-specific probe. -/
theorem dynamic_check_gated_and_additive (repo : RepoRow) (env : EvalEnv)
    (o : BrowserObs) (hpa : env.playwrightAvailable = true)
    (ho : env.browser = some o) :
    ((evaluate_repository repo env).filter
        (fun r => r.check_name == "Dynamic Functionality")).map ResultRow.score
      = if env.pagesResponse = some 200
        then [min ((if stripStr o.title ≠ "" then (3 : ℚ)/10 else 0)
          + (if (stripStr o.bodyText).length > 50 then (3 : ℚ)/10 else 0)
          + (if probePasses repo.task o then (4 : ℚ)/10 else 0)) 1]
        else [] := by
  rw [dyn_scores, hpa, ho, dynamic_check_score_sum]
  by_cases hp : env.pagesResponse = some 200
  · rw [if_pos ((pages_accessible_iff env.pagesResponse).mpr hp), if_pos hp]
  · rw [if_neg ?_, if_neg hp]
    intro hcontra
    exact hp ((pages_accessible_iff env.pagesResponse).mp hcontra)

/-- A concrete accepted submission for exercising the pipeline theorems. -/
def c5Repo : RepoRow :=
  { email := "a@x.edu", task := "todo-manager-ab123", round := 1,
    nonce := "n1", repo_url := "r", commit_sha := "c", pages_url := "p" }

/-- A concrete browser observation: non-blank title, >50 characters of
body text, and the todo-specific controls present. -/
def c5Obs : BrowserObs :=
  { title := "Todo Manager",
    bodyText := "A fully functional todo manager application with adding and editing",
    secondBody := "", inputsPresent := true, buttonsPresent := true }

/-- A concrete evaluation environment: clone succeeded, page reachable,
Playwright working. -/
def c5Env : EvalEnv :=
  { cloneOk := true,
    fs := [("LICENSE", some "MIT License"), ("index.html", some "<html>")],
    openaiAvailable := false, readmeOracle := .apiError "down",
    codeOracle := .apiError "down", pagesResponse := some 200,
    playwrightAvailable := true, browser := some c5Obs }

/-- Witness for C5: on the concrete run all three sub-probes pass and the
stored dynamic score evaluates to the clamp of `0.3 + 0.3 + 0.4`. -/
theorem dynamic_check_gated_and_additive_witness :
    c5Env.playwrightAvailable = true ∧ c5Env.browser = some c5Obs ∧
    (((evaluate_repository c5Repo c5Env).filter
        (fun r => r.check_name == "Dynamic Functionality")).map ResultRow.score
      = if c5Env.pagesResponse = some 200
        then [min ((if stripStr c5Obs.title ≠ "" then (3 : ℚ)/10 else 0)
          + (if (stripStr c5Obs.bodyText).length > 50 then (3 : ℚ)/10 else 0)
          + (if probePasses c5Repo.task c5Obs then (4 : ℚ)/10 else 0)) 1]
        else []) ∧
    ((evaluate_repository c5Repo c5Env).filter
        (fun r => r.check_name == "Dynamic Functionality")).map ResultRow.score
      = [1] := by
  refine ⟨rfl, rfl, dynamic_check_gated_and_additive c5Repo c5Env c5Obs rfl rfl,
    ?_⟩
  have hpg : (check_pages_accessibility c5Env.pagesResponse).1 = true := rfl
  rw [dyn_scores, if_pos hpg]
  show [(dynamic_check_playwright c5Env.playwrightAvailable c5Env.browser
    c5Repo.task).1] = [1]
  rw [show c5Env.playwrightAvailable = true from rfl,
    show c5Env.browser = some c5Obs from rfl, dynamic_check_score_sum]
  have h1 : stripStr c5Obs.title ≠ "" := by decide
  have h2 : (stripStr c5Obs.bodyText).length > 50 := by decide
  have h3 : probePasses c5Repo.task c5Obs = true := by decide
  rw [if_pos h1, if_pos h2, if_pos h3]
  norm_num

/-- A concrete accepted submission for the license-check witness. -/
def c6Repo : RepoRow :=
  { email := "b@x.edu", task := "weather-dashboard-cd456", round := 1,
    nonce := "n2", repo_url := "r", commit_sha := "c", pages_url := "p" }

/-- A concrete evaluation environment whose clone holds an MIT `LICENSE`. -/
def c6Env : EvalEnv :=
  { cloneOk := true, fs := [("LICENSE", some "MIT License")],
    openaiAvailable := false, readmeOracle := .apiError "down",
    codeOracle := .apiError "down", pagesResponse := none,
    playwrightAvailable := false, browser := none }

/-- Witness for C6's amended theorem: with an exact-named `LICENSE` file
containing MIT text, the recorded license score evaluates to `1.0`. -/
theorem check_mit_license_exact_filenames_witness :
    c6Env.cloneOk = true ∧
    (((evaluate_repository c6Repo c6Env).filter
        (fun r => r.check_name == "MIT License")).map ResultRow.score
      = [if mitFileFound c6Env.fs then 1 else 0] ∧
     (check_mit_license c6Env.fs).1 = mitFileFound c6Env.fs) ∧
    ((evaluate_repository c6Repo c6Env).filter
        (fun r => r.check_name == "MIT License")).map ResultRow.score = [1] :=
  ⟨rfl, check_mit_license_exact_filenames c6Repo c6Env rfl, by decide⟩

/-- C8 (counterexample): a notification whose `evaluation_url` is the
empty string is reported as a failure after zero delivery attempts — not
after exhausting the five attempts — even though every attempt would have
returned HTTP 200. -/
theorem notify_empty_url_counterexample :
    notify_evaluation_api (some "") (fun _ => some 200) 5
      = (false, [], 0) ∧
    (notify_evaluation_api (some "") (fun _ => some 200) 5).2.2 ≠ 5 := by
  exact ⟨rfl, by decide⟩

/-- C8 (amended): for a notification carrying a non-empty evaluation URL,
the notifier makes at most 5 attempts, sleeps exactly `2 ^ attempt`
seconds after each failed attempt except the last — so the inter-attempt
delays are strictly increasing — returns success exactly when some
attempt got HTTP 200 (stopping at the first such attempt), and reports
failure only after all 5 attempts are exhausted. -/
theorem notify_retry_protocol (u : String) (responses : Nat → Option Nat)
    (hu : u ≠ "") :
    (notify_evaluation_api (some u) responses 5).2.2 ≤ 5 ∧
    (notify_evaluation_api (some u) responses 5).2.1
      = (List.range (notify_evaluation_api (some u) responses 5).2.1.length).map
          (fun i => 2 ^ i) ∧
    List.Chain' (· < ·) (notify_evaluation_api (some u) responses 5).2.1 ∧
    ((notify_evaluation_api (some u) responses 5).1 = true ↔
      ∃ i, i < 5 ∧ responses i = some 200) ∧
    ((notify_evaluation_api (some u) responses 5).1 = true →
      responses ((notify_evaluation_api (some u) responses 5).2.2 - 1)
          = some 200 ∧
      ∀ j, j < (notify_evaluation_api (some u) responses 5).2.2 - 1 →
        responses j ≠ some 200) ∧
    ((notify_evaluation_api (some u) responses 5).1 = false →
      (notify_evaluation_api (some u) responses 5).2.2 = 5) := by
  have hbe : (u == "") = false := beq_eq_false_iff_ne.mpr hu
  have hne : notify_evaluation_api (some u) responses 5
      = notifyLoop responses 5 [0, 1, 2, 3, 4] := by
    simp only [notify_evaluation_api, hbe, Bool.false_eq_true, if_false]
    rw [show List.range 5 = [0, 1, 2, 3, 4] from rfl]
  rw [hne]
  by_cases h0 : responses 0 = some 200
  · have e : notifyLoop responses 5 [0, 1, 2, 3, 4] = (true, [], 1) := by
      simp [notifyLoop, h0]
    rw [e]
    refine ⟨by norm_num, rfl, by simp, ?_, ?_, by simp⟩
    · exact ⟨fun _ => ⟨0, by norm_num, h0⟩, fun _ => rfl⟩
    · exact fun _ => ⟨h0, fun j hj => absurd hj (by simp)⟩
  · by_cases h1 : responses 1 = some 200
    · have e : notifyLoop responses 5 [0, 1, 2, 3, 4] = (true, [1], 2) := by
        simp [notifyLoop, h0, h1]
      rw [e]
      refine ⟨by norm_num, by decide, by simp, ?_, ?_, by simp⟩
      · exact ⟨fun _ => ⟨1, by norm_num, h1⟩, fun _ => rfl⟩
      · refine fun _ => ⟨h1, fun j hj => ?_⟩
        replace hj : j < 1 := hj
        interval_cases j
        exact h0
    · by_cases h2 : responses 2 = some 200
      · have e : notifyLoop responses 5 [0, 1, 2, 3, 4] = (true, [1, 2], 3) := by
          simp [notifyLoop, h0, h1, h2]
        rw [e]
        refine ⟨by norm_num, by decide, by simp [List.chain'_cons], ?_, ?_,
          by simp⟩
        · exact ⟨fun _ => ⟨2, by norm_num, h2⟩, fun _ => rfl⟩
        · refine fun _ => ⟨h2, fun j hj => ?_⟩
          replace hj : j < 2 := hj
          interval_cases j
          · exact h0
          · exact h1
      · by_cases h3 : responses 3 = some 200
        · have e : notifyLoop responses 5 [0, 1, 2, 3, 4]
              = (true, [1, 2, 4], 4) := by
            simp [notifyLoop, h0, h1, h2, h3]
          rw [e]
          refine ⟨by norm_num, by decide, by simp [List.chain'_cons], ?_, ?_,
            by simp⟩
          · exact ⟨fun _ => ⟨3, by norm_num, h3⟩, fun _ => rfl⟩
          · refine fun _ => ⟨h3, fun j hj => ?_⟩
            replace hj : j < 3 := hj
            interval_cases j
            · exact h0
            · exact h1
            · exact h2
        · by_cases h4 : responses 4 = some 200
          · have e : notifyLoop responses 5 [0, 1, 2, 3, 4]
                = (true, [1, 2, 4, 8], 5) := by
              simp [notifyLoop, h0, h1, h2, h3, h4]
            rw [e]
            refine ⟨by norm_num, by decide, by simp [List.chain'_cons], ?_, ?_,
              by simp⟩
            · exact ⟨fun _ => ⟨4, by norm_num, h4⟩, fun _ => rfl⟩
            · refine fun _ => ⟨h4, fun j hj => ?_⟩
              replace hj : j < 4 := hj
              interval_cases j
              · exact h0
              · exact h1
              · exact h2
              · exact h3
          · have e : notifyLoop responses 5 [0, 1, 2, 3, 4]
                = (false, [1, 2, 4, 8], 5) := by
              simp [notifyLoop, h0, h1, h2, h3, h4]
            rw [e]
            refine ⟨by norm_num, by decide, by simp [List.chain'_cons], ?_,
              by simp, fun _ => rfl⟩
            constructor
            · intro hcontra
              exact absurd hcontra (by simp)
            · rintro ⟨i, hi, hri⟩
              interval_cases i
              · exact (h0 hri).elim
              · exact (h1 hri).elim
              · exact (h2 hri).elim
              · exact (h3 hri).elim
              · exact (h4 hri).elim

/-- Witness for C8: with a non-empty URL and HTTP 200 first obtained on
the third attempt, the notifier stops after 3 attempts having slept 1 and
then 2 seconds. -/
theorem notify_retry_protocol_witness :
    ("http://eval" : String) ≠ "" ∧
    notify_evaluation_api (some "http://eval")
        (fun i => if i = 2 then some 200 else some 500) 5
      = (true, [1, 2], 3) ∧
    ((notify_evaluation_api (some "http://eval")
        (fun i => if i = 2 then some 200 else some 500) 5).2.2 ≤ 5 ∧
     (notify_evaluation_api (some "http://eval")
        (fun i => if i = 2 then some 200 else some 500) 5).2.1
       = (List.range (notify_evaluation_api (some "http://eval")
           (fun i => if i = 2 then some 200 else some 500) 5).2.1.length).map
           (fun i => 2 ^ i) ∧
     List.Chain' (· < ·) (notify_evaluation_api (some "http://eval")
        (fun i => if i = 2 then some 200 else some 500) 5).2.1 ∧
     ((notify_evaluation_api (some "http://eval")
        (fun i => if i = 2 then some 200 else some 500) 5).1 = true ↔
       ∃ i, i < 5 ∧ (if i = 2 then some 200 else some 500) = some (200 : Nat)) ∧
     ((notify_evaluation_api (some "http://eval")
        (fun i => if i = 2 then some 200 else some 500) 5).1 = true →
       (if ((notify_evaluation_api (some "http://eval")
           (fun i => if i = 2 then some 200 else some 500) 5).2.2 - 1) = 2
         then some 200 else some 500) = some (200 : Nat) ∧
       ∀ j, j < (notify_evaluation_api (some "http://eval")
           (fun i => if i = 2 then some 200 else some 500) 5).2.2 - 1 →
         (if j = 2 then some 200 else some 500) ≠ some (200 : Nat)) ∧
     ((notify_evaluation_api (some "http://eval")
        (fun i => if i = 2 then some 200 else some 500) 5).1 = false →
       (notify_evaluation_api (some "http://eval")
          (fun i => if i = 2 then some 200 else some 500) 5).2.2 = 5)) :=
  ⟨by decide, by decide,
    notify_retry_protocol "http://eval"
      (fun i => if i = 2 then some 200 else some 500) (by decide)⟩

/-- Membership in a `get_tasks` lookup with truthy (non-empty, non-zero)
filters is membership in the table with both columns matching. -/
lemma mem_get_tasks_iff (tasks : List TaskRow) (e : String) (rd : Int)
    (he : e ≠ "") (hrd : rd ≠ 0) (t : TaskRow) :
    t ∈ get_tasks tasks (some e) (some rd) ↔
      t ∈ tasks ∧ t.email = e ∧ t.round = rd := by
  have hbe : (e == "") = false := beq_eq_false_iff_ne.mpr he
  simp only [get_tasks, List.mem_filter, strFilter, intFilter, hbe,
    Bool.false_eq_true, if_false, Bool.and_eq_true, beq_iff_eq, hrd,
    if_neg hrd]
  constructor
  · rintro ⟨h1, h2, h3⟩
    exact ⟨h1, h2.symm, h3.symm⟩
  · rintro ⟨h1, h2, h3⟩
    exact ⟨h1, h2.symm, h3.symm⟩

/-- C1 (amended): for a notification carrying all required fields whose
email is non-empty and round non-zero, the gate records the submission iff
a task with the same `(email, task, round, nonce)` is on file: on a match
it answers 200/`success` and upserts the repo row (500 and no write on a
storage fault); with no match it answers 400 and writes nothing. -/
theorem submission_gate_match_iff (tasks : List TaskRow)
    (repos : List RepoRow) (e tk nn ru cs pu : String) (rd : Int)
    (he : e ≠ "") (hrd : rd ≠ 0) :
    ((∃ t ∈ tasks, t.email = e ∧ t.task = tk ∧ t.round = rd ∧ t.nonce = nn) →
      receive_notification tasks repos
          ⟨some e, some tk, some rd, some nn, some ru, some cs, some pu⟩ true
        = ⟨200, .success, insert_repo repos ⟨e, tk, rd, nn, ru, cs, pu⟩⟩ ∧
      (⟨e, tk, rd, nn, ru, cs, pu⟩ : RepoRow) ∈
        (receive_notification tasks repos
          ⟨some e, some tk, some rd, some nn, some ru, some cs, some pu⟩
          true).repos ∧
      receive_notification tasks repos
          ⟨some e, some tk, some rd, some nn, some ru, some cs, some pu⟩ false
        = ⟨500, .error "Failed to store repo submission", repos⟩) ∧
    ((¬ ∃ t ∈ tasks, t.email = e ∧ t.task = tk ∧ t.round = rd ∧ t.nonce = nn) →
      ∀ storageOk : Bool,
        receive_notification tasks repos
            ⟨some e, some tk, some rd, some nn, some ru, some cs, some pu⟩
            storageOk
          = ⟨400,
              .error "No matching task found for the provided email, task, round, and nonce",
              repos⟩) := by
  cases hfind : (get_tasks tasks (some e) (some rd)).find?
      (fun t => t.task == tk && t.nonce == nn) with
  | none =>
    have hnomatch :
        ¬ ∃ t ∈ tasks, t.email = e ∧ t.task = tk ∧ t.round = rd ∧ t.nonce = nn := by
      rintro ⟨t, htdb, he', htk, hrd', hnn⟩
      have hmem : t ∈ get_tasks tasks (some e) (some rd) :=
        (mem_get_tasks_iff tasks e rd he hrd t).mpr ⟨htdb, he', hrd'⟩
      have hnp := List.find?_eq_none.mp hfind t hmem
      apply hnp
      simp [htk, hnn]
    refine ⟨fun hmatch => absurd hmatch hnomatch, fun _ storageOk => ?_⟩
    simp only [receive_notification, hfind]
  | some tfound =>
    have hmatch :
        ∃ t ∈ tasks, t.email = e ∧ t.task = tk ∧ t.round = rd ∧ t.nonce = nn := by
      have hmem := List.mem_of_find?_eq_some hfind
      have hpred := List.find?_some hfind
      rw [mem_get_tasks_iff tasks e rd he hrd] at hmem
      obtain ⟨htdb, he', hrd'⟩ := hmem
      simp only [Bool.and_eq_true, beq_iff_eq] at hpred
      exact ⟨tfound, htdb, he', hpred.1, hrd', hpred.2⟩
    refine ⟨fun _ => ⟨?_, ?_, ?_⟩, fun hno => absurd hmatch hno⟩
    · simp only [receive_notification, hfind, if_pos]
    · have hrepos : (receive_notification tasks repos
          ⟨some e, some tk, some rd, some nn, some ru, some cs, some pu⟩
          true).repos = insert_repo repos ⟨e, tk, rd, nn, ru, cs, pu⟩ := by
        simp only [receive_notification, hfind, if_pos]
      rw [hrepos, insert_repo]
      exact List.mem_append_right _ (by simp)
    · simp only [receive_notification, hfind, Bool.false_eq_true, if_false]

/-- The issued task on file for the gate witness and counterexample. -/
def c1Task : TaskRow :=
  { email := "a@x.edu", task := "todo-manager-ab123", round := 1,
    nonce := "n1", brief := "b", attachments := [], checks := [],
    evaluation_url := "u", endpoint := "ep", statuscode := some 200,
    secret := "s" }

/-- Witness for C1's amended theorem: a notification matching the stored
`(email, task, round, nonce)` is accepted with 200/`success` and its repo
row is recorded. -/
theorem submission_gate_match_iff_witness :
    ("a@x.edu" : String) ≠ "" ∧ ((1 : Int) ≠ 0) ∧
    (((∃ t ∈ [c1Task], t.email = "a@x.edu" ∧ t.task = "todo-manager-ab123" ∧
        t.round = 1 ∧ t.nonce = "n1") →
      receive_notification [c1Task] []
          ⟨some "a@x.edu", some "todo-manager-ab123", some 1, some "n1",
            some "r", some "c", some "p"⟩ true
        = ⟨200, .success, insert_repo []
            ⟨"a@x.edu", "todo-manager-ab123", 1, "n1", "r", "c", "p"⟩⟩ ∧
      (⟨"a@x.edu", "todo-manager-ab123", 1, "n1", "r", "c", "p"⟩ : RepoRow) ∈
        (receive_notification [c1Task] []
          ⟨some "a@x.edu", some "todo-manager-ab123", some 1, some "n1",
            some "r", some "c", some "p"⟩ true).repos ∧
      receive_notification [c1Task] []
          ⟨some "a@x.edu", some "todo-manager-ab123", some 1, some "n1",
            some "r", some "c", some "p"⟩ false
        = ⟨500, .error "Failed to store repo submission", []⟩) ∧
    ((¬ ∃ t ∈ [c1Task], t.email = "a@x.edu" ∧ t.task = "todo-manager-ab123" ∧
        t.round = 1 ∧ t.nonce = "n1") →
      ∀ storageOk : Bool,
        receive_notification [c1Task] []
            ⟨some "a@x.edu", some "todo-manager-ab123", some 1, some "n1",
              some "r", some "c", some "p"⟩ storageOk
          = ⟨400,
              .error "No matching task found for the provided email, task, round, and nonce",
              []⟩)) ∧
    receive_notification [c1Task] []
        ⟨some "a@x.edu", some "todo-manager-ab123", some 1, some "n1",
          some "r", some "c", some "p"⟩ true
      = ⟨200, .success,
          [⟨"a@x.edu", "todo-manager-ab123", 1, "n1", "r", "c", "p"⟩]⟩ :=
  ⟨by decide, by decide,
    submission_gate_match_iff [c1Task] [] "a@x.edu" "todo-manager-ab123"
      "n1" "r" "c" "p" 1 (by decide) (by decide),
    by decide⟩

/-- C1 (counterexample): a notification with `round = 0` — a falsy value,
so `get_tasks` drops its round filter — is accepted with 200 and a repo
row for round 0 is recorded, although the store holds no task whatsoever
with round 0: the accepted-iff-matching-tuple claim fails at this input. -/
theorem submission_gate_falsy_round_counterexample :
    (receive_notification [c1Task] []
        ⟨some "a@x.edu", some "todo-manager-ab123", some 0, some "n1",
          some "r", some "c", some "p"⟩ true).status = 200 ∧
    (⟨"a@x.edu", "todo-manager-ab123", 0, "n1", "r", "c", "p"⟩ : RepoRow) ∈
      (receive_notification [c1Task] []
        ⟨some "a@x.edu", some "todo-manager-ab123", some 0, some "n1",
          some "r", some "c", some "p"⟩ true).repos ∧
    ∀ t ∈ [c1Task], ¬(t.round = 0) := by
  refine ⟨rfl, by decide, by decide⟩
